import Mathlib

/-!
Verification of the auto_mark annotation frontend against its
natural-language specification.

The definitions below are a shallow embedding of the React frontend
(`frontend-app/src`): each event handler becomes a pure Lean function on an
explicit state record, JavaScript numbers become `ℚ`, JS truthiness of a
number is modelled as `≠ 0`, and JS `undefined`-able inputs become `Option`.
Parts of the backend that the claims need but whose code is not in the
repository snapshot (the task runner, the export endpoint) are modelled from
the specification and marked as such in their doc comments.
-/

namespace AutoMark

/-! ## Configure page (`ConfigurePage.jsx`) -/

/-- The `localConfig` state of `ConfigurePage` (lines 5-14). -/
structure ConfigState where
  objects : List String
  boxThreshold : ℚ
  textThreshold : ℚ
  useSam : Bool
  exportFormat : String
  minBoxSize : ℕ
  removeOverlaps : Bool
  skipDetection : Bool
  deriving Repr, DecidableEq

/-- The app-level `config` state of `App.jsx` (the five fields read by
the initializer of `ConfigurePage` and by `ProcessingPage.startAnnotation`). -/
structure AppConfig where
  objects : List String
  boxThreshold : ℚ
  textThreshold : ℚ
  useSam : Bool
  exportFormat : String
  deriving Repr, DecidableEq

/-- Initial `config` of `App.jsx` lines 14-20. -/
def initialAppConfig : AppConfig :=
  { objects := []
    boxThreshold := 35/100
    textThreshold := 25/100
    useSam := false
    exportFormat := "coco" }

/-- The `useState` initializer of `ConfigurePage` (lines 5-14):
`objects` set to `config.objects` when non-empty, else a single blank entry, the thresholds
and format copied from the app config, `minBoxSize: 10`,
`removeOverlaps: true`, `skipDetection: false`. -/
def initLocalConfig (c : AppConfig) : ConfigState :=
  { objects := if c.objects.length > 0 then c.objects else [""]
    boxThreshold := c.boxThreshold
    textThreshold := c.textThreshold
    useSam := c.useSam
    exportFormat := c.exportFormat
    minBoxSize := 10
    removeOverlaps := true
    skipDetection := false }

/-- The four export format ids of `formatOptions` (ConfigurePage lines 57-62),
identical to the `formats` ids of `ExportPage` lines 11-65. -/
def exportFormatIds : List String := ["coco", "yolo", "voc", "roboflow"]

/-- The 17 values an HTML range input with `min=0.1 max=0.9 step=0.05` can
produce (the threshold sliders, ConfigurePage lines 186-211). -/
def sliderValue (k : Fin 17) : ℚ := 1/10 + k.val * (5/100)

/-- Events of the configure page.  Each constructor corresponds to one
`onChange`/`onClick` handler; the payloads record exactly what the rendered
controls can deliver (a radio rendered from `formatOptions` can only deliver
one of the four ids, a slider only one of its 17 stops). -/
inductive ConfigEvent where
  | objChange (i : ℕ) (v : String)
  | addObject
  | removeObject (i : ℕ)
  | skipToggle (checked : Bool)
  | setBoxThreshold (k : Fin 17)
  | setTextThreshold (k : Fin 17)
  | setUseSamFlag (b : Bool)
  | setRemoveOverlaps (b : Bool)
  | setFormat (k : Fin 4)
  deriving DecidableEq

/-- `removeObject` body (lines 29-32): drop index `i`, refill with a single blank entry
when the result is empty. -/
def removeObjectFn (objects : List String) (i : ℕ) : List String :=
  let newObjects := objects.eraseIdx i
  if newObjects.length ≠ 0 then newObjects else [""]

/-- One step of the configure page state machine: the bodies of
`handleObjectChange`, `addObject`, `removeObject`, `handleSkipToggle` and the
inline `setLocalConfig` updaters (ConfigurePage lines 16-41, 193, 210, 226,
260). -/
def configStep (s : ConfigState) : ConfigEvent → ConfigState
  | .objChange i v => { s with objects := s.objects.set i v }
  | .addObject => { s with objects := s.objects ++ [""] }
  | .removeObject i => { s with objects := removeObjectFn s.objects i }
  | .skipToggle checked =>
      { s with skipDetection := checked
               objects := if checked then ["object"] else [""] }
  | .setBoxThreshold k => { s with boxThreshold := sliderValue k }
  | .setTextThreshold k => { s with textThreshold := sliderValue k }
  | .setUseSamFlag b => { s with useSam := b }
  | .setRemoveOverlaps b => { s with removeOverlaps := b }
  | .setFormat k => { s with exportFormat := exportFormatIds.get ⟨k.val, by simp [exportFormatIds]⟩ }

/-- Apply a list of configure-page events in order. -/
def applyEvents (s : ConfigState) (evs : List ConfigEvent) : ConfigState :=
  evs.foldl configStep s

/-- The JS `String.prototype.trim`: the string with leading and trailing
whitespace removed (written over the character list so it evaluates in the
kernel). -/
def jsTrim (s : String) : String :=
  String.mk (((s.data.dropWhile Char.isWhitespace).reverse.dropWhile
    Char.isWhitespace).reverse)

/-- `handleSubmit` (ConfigurePage lines 43-55).  Returns `none` when the
submission is blocked by the `alert` branch, otherwise the config object
passed to `onSubmit`.  A string is kept by `filter(obj => obj.trim())` iff
its trim is non-empty (JS truthiness of a string). -/
def handleSubmit (s : ConfigState) : Option ConfigState :=
  if s.skipDetection = false then
    if (s.objects.filter (fun obj => jsTrim obj ≠ "")).length = 0 then none
    else some { s with objects := s.objects.filter (fun obj => jsTrim obj ≠ "") }
  else some { s with objects := ["object"] }

/-! ## Processing page (`ProcessingPage.jsx`) -/

/-- A JSON value, enough to express the run-start request body. -/
inductive JVal where
  | jStr (s : String)
  | jNum (q : ℚ)
  | jBool (b : Bool)
  | jArr (vs : List JVal)

/-- The JSON body sent by `startAnnotation` (ProcessingPage lines 361-373):
`JSON.stringify({objects, box_threshold, text_threshold, use_sam, export_format})`
with `use_sam: config.useSam || false`. -/
def startAnnotationBody (c : AppConfig) : List (String × JVal) :=
  [ ("objects", .jArr (c.objects.map .jStr))
  , ("box_threshold", .jNum c.boxThreshold)
  , ("text_threshold", .jNum c.textThreshold)
  , ("use_sam", .jBool (c.useSam || false))
  , ("export_format", .jStr c.exportFormat) ]

/-- The polling interval passed to `setInterval` in `startPolling`
(ProcessingPage line 417): 500 ms. -/
def pollIntervalMs : ℕ := 500

/-- A `/api/status` response as read by the polling callback:
`data.progress` and `data.processed_count` may be absent (`|| 0`),
`data.status` is a string. -/
structure PollData where
  progress : Option ℚ
  processed_count : Option ℕ
  status : String
  deriving DecidableEq

/-- The part of the `ProcessingPage` state the polling callback touches. -/
structure PageState where
  status : String
  progress : ℚ
  processedCount : ℕ
  pollingActive : Bool
  deriving DecidableEq

/-- One tick of the polling callback (ProcessingPage lines 389-416):
store `data.progress || 0` and `data.processed_count || 0`; on status
`"completed"` clear the interval, set status `completed` and progress 100;
on status `"error"` clear the interval and set status `error`. -/
def handlePollTick (p : PageState) (d : PollData) : PageState :=
  let p1 := { p with progress := d.progress.getD 0
                     processedCount := d.processed_count.getD 0 }
  if d.status = "completed" then
    { p1 with pollingActive := false, status := "completed", progress := 100 }
  else if d.status = "error" then
    { p1 with pollingActive := false, status := "error" }
  else p1

/-- The mount-effect state of `ProcessingPage`: the `hasStarted` ref and a
count of run-start requests actually sent. -/
structure ProcState where
  hasStarted : Bool
  startRequests : ℕ
  deriving DecidableEq

/-- State of `ProcState` before the first render. -/
def initProcState : ProcState := { hasStarted := false, startRequests := 0 }

/-- The `useEffect` body of `ProcessingPage` (lines 337-348): return early
when there is no session or `hasStarted.current` is set; otherwise set the
flag and send the run-start request. -/
def processingEffect (sessionPresent : Bool) (s : ProcState) : ProcState :=
  if sessionPresent = false ∨ s.hasStarted = true then s
  else { hasStarted := true, startRequests := s.startRequests + 1 }

/-! ## Upload page (`UploadPage.jsx`) -/

/-- The part of the `UploadPage` state the file handlers touch: the accepted
file (by name) and the error message. -/
structure UploadState where
  file : Option String
  error : Option String
  deriving DecidableEq

/-- `UploadPage` state before any interaction (lines 8, 11). -/
def initUploadState : UploadState := { file := none, error := none }

/-- The JS `String.prototype.endsWith` (written over the character lists so
it evaluates in the kernel). -/
def jsEndsWith (s pat : String) : Bool :=
  List.isSuffixOf pat.data s.data

/-- `handleDrop` (UploadPage lines 25-36): accept the dropped file iff its
name ends in `".zip"`, otherwise show the please-upload-a-ZIP-file error. -/
def handleDrop (dropped : Option String) (s : UploadState) : UploadState :=
  match dropped with
  | some name =>
      if jsEndsWith name ".zip" then { s with file := some name, error := none }
      else { s with error := some "Please upload a ZIP file" }
  | none => { s with error := some "Please upload a ZIP file" }

/-- `handleFileSelect` (UploadPage lines 38-44): accept whatever file the
picker delivered, with no check on its name. -/
def handleFileSelect (selected : Option String) (s : UploadState) : UploadState :=
  match selected with
  | some name => { s with file := some name, error := none }
  | none => s

/-! ## Viewer page (`ViewerPage.jsx`) -/

/-- One image's annotation record as the viewer reads it
(`{boxes, labels, scores}`). -/
structure Ann where
  boxes : List ℚ
  labels : List String
  scores : List ℚ
  deriving DecidableEq

/-- An annotation set: the per-image records in object-iteration order
(`Object.values`). -/
abbrev AnnSet := List Ann

/-- First-seen deduplication with an accumulator of already-seen elements. -/
def firstSeenAux : List String → List String → List String
  | [], _ => []
  | a :: rest, seen =>
      if a ∈ seen then firstSeenAux rest seen
      else a :: firstSeenAux rest (a :: seen)

/-- `[...new Set(xs)]`: unique elements in first-seen order. -/
def firstSeenDedup (l : List String) : List String := firstSeenAux l []

/-- `classes` (ViewerPage lines 306-308): unique labels over all annotation
records, in first-seen order. -/
def classesOf (a : AnnSet) : List String :=
  firstSeenDedup (a.flatMap (fun ann => ann.labels))

/-- `classColors.colors` (ViewerPage line 317). -/
def classColorsList : List String :=
  ["#6366f1", "#06b6d4", "#10b981", "#f97316", "#ec4899", "#8b5cf6", "#f59e0b"]

/-- `classColors.default` (ViewerPage line 316). -/
def classColorsDefault : String := "#6366f1"

/-- `getClassColor` (ViewerPage lines 320-323): index the palette by
`classes.indexOf(label) % colors.length`; a label absent from `classes`
indexes at `-1`, yields `undefined` and falls back to the default color. -/
def getClassColor (classes : List String) (label : String) : String :=
  match classes.indexOf? label with
  | some i => (classColorsList.get? (i % classColorsList.length)).getD classColorsDefault
  | none => classColorsDefault

/-- The label the viewer uses for detection `i` of record `ann`
(line 348, the label entry or the fallback token): an absent or empty entry falls back to
`"unknown"`. -/
def labelAt (ann : Ann) (i : ℕ) : String :=
  match ann.labels.get? i with
  | some s => if s = "" then "unknown" else s
  | none => "unknown"

/-- The color the viewer draws for detection `i` of record `ann` within
annotation set `a` (line 354). -/
def detectionColor (a : AnnSet) (ann : Ann) (i : ℕ) : String :=
  getClassColor (classesOf a) (labelAt ann i)

/-- A box object as the viewer canvas code reads it (lines 355-358).  An
absent field reads as `undefined`, which is falsy exactly like `0`; both are
modelled as the value `0`. -/
structure VBox where
  x1 : ℚ
  y1 : ℚ
  x2 : ℚ
  y2 : ℚ
  x : ℚ
  y : ℚ
  width : ℚ
  height : ℚ
  deriving DecidableEq

/-- `const x = box.x1 || (box.x * img.width)` (line 355): JS `||` takes the
right operand iff `box.x1` is falsy, i.e. `0`. -/
def drawX (b : VBox) (imgWidth : ℚ) : ℚ :=
  if b.x1 ≠ 0 then b.x1 else b.x * imgWidth

/-- `const y = box.y1 || (box.y * img.height)` (line 356). -/
def drawY (b : VBox) (imgHeight : ℚ) : ℚ :=
  if b.y1 ≠ 0 then b.y1 else b.y * imgHeight

/-- `const w = box.x2 ? (box.x2 - box.x1) : (box.width * img.width)`
(line 357). -/
def drawW (b : VBox) (imgWidth : ℚ) : ℚ :=
  if b.x2 ≠ 0 then b.x2 - b.x1 else b.width * imgWidth

/-- `const h = box.y2 ? (box.y2 - box.y1) : (box.height * img.height)`
(line 358). -/
def drawH (b : VBox) (imgHeight : ℚ) : ℚ :=
  if b.y2 ≠ 0 then b.y2 - b.y1 else b.height * imgHeight

/-- `totalDetections` (ViewerPage lines 412-414): sum over the records of
`ann.boxes?.length || 0`. -/
def totalDetections (a : AnnSet) : ℕ :=
  a.foldl (fun sum ann => sum + ann.boxes.length) 0

/-- The numerator of `avgConfidence` (lines 415-416): sum over the records of
`ann.scores?.reduce((s, sc) => s + sc, 0) || 0`. -/
def sumScores (a : AnnSet) : ℚ :=
  a.foldl (fun sum ann => sum + ann.scores.sum) 0

/-- `avgConfidence` (lines 415-417): the score sum divided by
`(totalDetections || 1)`. -/
def avgConfidence (a : AnnSet) : ℚ :=
  sumScores a / (if totalDetections a = 0 then 1 else (totalDetections a : ℚ))

/-- An annotation set is aligned when every record carries one score per box
(the shape the backend contract in §6 produces). -/
def Aligned (a : AnnSet) : Prop :=
  ∀ ann ∈ a, ann.scores.length = ann.boxes.length

/-! ## Export page (`ExportPage.jsx`) -/

/-- `setSelectedFormat` can only receive the `value` of one of the four
rendered radio inputs (ExportPage lines 170-181), so the selected format
after any sequence of clicks is the initial `config.exportFormat` or one of
the four ids. -/
def selectFormatClicks (initial : String) (clicks : List (Fin 4)) : String :=
  clicks.foldl (fun _ k => exportFormatIds.get ⟨k.val, by simp [exportFormatIds]⟩) initial

/-- Outcome of `handleExport` (ExportPage lines 76-107) as a function of the
server's response: on a non-OK response the thrown error skips the download and
`setExportComplete(true)`, and the catch block shows an alert instead. -/
structure ExportOutcome where
  downloaded : Bool
  exportComplete : Bool
  alertShown : Bool
  deriving DecidableEq

/-- `handleExport` (ExportPage lines 76-107). -/
def handleExport (responseOk : Bool) : ExportOutcome :=
  if responseOk then
    { downloaded := true, exportComplete := true, alertShown := false }
  else
    { downloaded := false, exportComplete := false, alertShown := true }

/-! ## Backend, modelled from the spec

The repository snapshot contains only the frontend sources; the task runner,
session store and export endpoint exist behind the REST interface of §6 but
their code is not under `src/`.  The definitions in this section are
modelled from the specification. -/

/-- Lifecycle status of a run (§3 ProgressState). -/
inductive RunStatus where
  | queued
  | processing
  | completed
  | error
  deriving DecidableEq, Repr

/-- Modelled from the spec: §3 ProgressState — per-session processed count,
total image count and status (the code of the backend task runner is not in the
snapshot). -/
structure RunState where
  processed : ℕ
  total : ℕ
  status : RunStatus
  deriving DecidableEq, Repr

/-- Modelled from the spec: §4.1 — on acceptance the runner "sets
ProgressState to `processing`, processed_count = 0". -/
def initRunState (total : ℕ) : RunState :=
  { processed := 0, total := total, status := .processing }

/-- Modelled from the spec: §4.1 — one iteration of the image loop of the runner:
process one image and increment `processed_count`; "on exhausting all
images: sets status `completed`" (the error path halts the loop, so a state
that is already terminal is left unchanged). -/
def runStep (s : RunState) : RunState :=
  if s.status = .processing then
    if s.processed < s.total then { s with processed := s.processed + 1 }
    else { s with status := .completed }
  else s

/-- The state of the runner after `i` loop iterations on a session with `n`
images. -/
def runIter (n i : ℕ) : RunState := runStep^[i] (initRunState n)

/-- Result of a run-start request (§4.1 `start_run`). -/
inductive StartResult where
  | accepted
  | rejected
  deriving DecidableEq, Repr

/-- Modelled from the spec: the per-session server state relevant to run
admission — the run status and a queue of pending run configs (the spec
mandates that the queue is never used: a second start is "rejected, not
queued"). -/
structure ServerSession where
  runStatus : RunStatus
  pendingRuns : List AppConfig
  deriving DecidableEq

/-- Modelled from the spec: §4.1 `start_run` — "Rejects if [the session]
already has a run `processing`"; §3 — "second start attempt while
`processing` is rejected, not queued". -/
def startRun (srv : ServerSession) (_cfg : AppConfig) : StartResult × ServerSession :=
  if srv.runStatus = .processing then (.rejected, srv)
  else (.accepted, { srv with runStatus := .processing })

/-- A produced export archive (handle only; §3 ExportJob). -/
structure Archive where
  format : String
  deriving DecidableEq

/-- Errors of the export endpoint (§7: unknown format, empty set). -/
inductive ExportErr where
  | unknownFormat (format : String)
  | emptyAnnotationSet
  deriving DecidableEq

/-- Modelled from the spec: §4.4 / §7 — the export endpoint rejects an
"unknown/unsupported format identifier ... with a distinct error, never
silently defaulted", and an empty annotation set, producing no archive in
either case. -/
def exportEndpoint (format : String) (a : AnnSet) : Except ExportErr Archive :=
  if format ∈ exportFormatIds then
    if totalDetections a = 0 then .error .emptyAnnotationSet
    else .ok { format := format }
  else .error (.unknownFormat format)

/-! ## Reachable configurations

The UI only ever submits a config built by `handleSubmit` from a configure
page state reached by some sequence of events, starting from the app-level
config — which is either the initial value in `App.jsx` or a previously submitted
config.  `ReachableApp`/`ReachableRun` capture exactly this loop. -/

/-- A threshold value the UI can hold: one of the 17 slider stops (the two
defaults 0.35 and 0.25 are the stops `k = 5` and `k = 3`). -/
def ThresholdOk (q : ℚ) : Prop := ∃ k : Fin 17, q = sliderValue k

/-- The invariant the configure page maintains on its local state. -/
def CfgInv (s : ConfigState) : Prop :=
  s.exportFormat ∈ exportFormatIds ∧ ThresholdOk s.boxThreshold ∧ ThresholdOk s.textThreshold

/-- The invariant on the app-level config. -/
def GoodApp (c : AppConfig) : Prop :=
  c.exportFormat ∈ exportFormatIds ∧ ThresholdOk c.boxThreshold ∧ ThresholdOk c.textThreshold

/-- The app-level view of a submitted config (`handleConfigSubmit` stores the
submitted object; only these five fields are ever read from it). -/
def submittedToApp (s : ConfigState) : AppConfig :=
  { objects := s.objects
    boxThreshold := s.boxThreshold
    textThreshold := s.textThreshold
    useSam := s.useSam
    exportFormat := s.exportFormat }

/-- App-level configs the UI can hold: the initial one, and any config
submitted from a configure page that was initialized from a reachable one. -/
inductive ReachableApp : AppConfig → Prop where
  | init : ReachableApp initialAppConfig
  | submit {c : AppConfig} {evs : List ConfigEvent} {out : ConfigState} :
      ReachableApp c →
      handleSubmit (applyEvents (initLocalConfig c) evs) = some out →
      ReachableApp (submittedToApp out)

/-- Configs with which the UI can start a run: the output of `handleSubmit`
on a reachable configure page state. -/
def ReachableRun (c : AppConfig) : Prop :=
  ∃ (c0 : AppConfig) (evs : List ConfigEvent) (out : ConfigState),
    ReachableApp c0 ∧
    handleSubmit (applyEvents (initLocalConfig c0) evs) = some out ∧
    c = submittedToApp out

/-- Inductive invariant of the modelled task runner. -/
def RunInv (s : RunState) : Prop :=
  s.processed ≤ s.total ∧ (s.status = .completed → s.processed = s.total)

/-- Inductive invariant of the `ProcessingPage` mount effect: before the
first effective render no request was sent, and never more than one. -/
def ProcInv (s : ProcState) : Prop :=
  (s.hasStarted = false → s.startRequests = 0) ∧ s.startRequests ≤ 1

/-! ## Concrete example values (used to instantiate the theorems) -/

/-- A configure page state whose prompts all trim to blank. -/
def cfgBlankExample : ConfigState :=
  { objects := ["  ", ""]
    boxThreshold := 35/100
    textThreshold := 25/100
    useSam := false
    exportFormat := "coco"
    minBoxSize := 10
    removeOverlaps := true
    skipDetection := false }

/-- The same state with the skip-detection fallback enabled. -/
def cfgSkipExample : ConfigState := { cfgBlankExample with skipDetection := true }

/-- The app config produced by typing "cat" into the first prompt field of a
fresh session and submitting. -/
def runExampleConfig : AppConfig :=
  { objects := ["cat"]
    boxThreshold := 35/100
    textThreshold := 25/100
    useSam := false
    exportFormat := "coco" }

/-- The configure page state submitted in that interaction. -/
def runExampleOut : ConfigState :=
  { objects := ["cat"]
    boxThreshold := 35/100
    textThreshold := 25/100
    useSam := false
    exportFormat := "coco"
    minBoxSize := 10
    removeOverlaps := true
    skipDetection := false }

/-- An annotation record with two detections of the same label. -/
def annExample : Ann :=
  { boxes := [1, 2], labels := ["ball", "ball"], scores := [9/10, 6/10] }

/-- A one-image annotation set. -/
def annSetExample : AnnSet := [annExample]

/-- An annotation set with no detections at all. -/
def annSetEmptyExample : AnnSet := [{ boxes := [], labels := [], scores := [] }]

/-- A viewer box carrying only normalized coordinates (pixel fields 0). -/
def boxNormExample : VBox :=
  { x1 := 0, y1 := 0, x2 := 0, y2 := 0, x := 1/4, y := 1/4, width := 1/2, height := 1/2 }

/-- A viewer box carrying pixel coordinates. -/
def boxPixelExample : VBox :=
  { x1 := 10, y1 := 20, x2 := 110, y2 := 220, x := 0, y := 0, width := 0, height := 0 }

/-- A status response reporting completion. -/
def pollCompletedExample : PollData :=
  { progress := some 100, processed_count := some 3, status := "completed" }

/-- A processing page state mid-run. -/
def pageStateExample : PageState :=
  { status := "processing", progress := 50, processedCount := 1, pollingActive := true }

/-- A server session with a run in flight. -/
def serverProcessingExample : ServerSession :=
  { runStatus := .processing, pendingRuns := [] }

/-! ## Invariant lemmas -/

lemma thresholdOk_initial_box : ThresholdOk initialAppConfig.boxThreshold :=
  ⟨⟨5, by norm_num⟩, by norm_num [initialAppConfig, sliderValue]⟩

lemma thresholdOk_initial_text : ThresholdOk initialAppConfig.textThreshold :=
  ⟨⟨3, by norm_num⟩, by norm_num [initialAppConfig, sliderValue]⟩

lemma goodApp_initial : GoodApp initialAppConfig :=
  ⟨by simp [initialAppConfig, exportFormatIds],
   thresholdOk_initial_box, thresholdOk_initial_text⟩

lemma cfgInv_init {c : AppConfig} (h : GoodApp c) : CfgInv (initLocalConfig c) := by
  obtain ⟨hf, hb, ht⟩ := h
  exact ⟨hf, hb, ht⟩

lemma cfgInv_step {s : ConfigState} (h : CfgInv s) (e : ConfigEvent) :
    CfgInv (configStep s e) := by
  obtain ⟨hf, hb, ht⟩ := h
  cases e with
  | objChange i v => exact ⟨hf, hb, ht⟩
  | addObject => exact ⟨hf, hb, ht⟩
  | removeObject i => exact ⟨hf, hb, ht⟩
  | skipToggle checked => exact ⟨hf, hb, ht⟩
  | setBoxThreshold k => exact ⟨hf, ⟨k, rfl⟩, ht⟩
  | setTextThreshold k => exact ⟨hf, hb, ⟨k, rfl⟩⟩
  | setUseSamFlag b => exact ⟨hf, hb, ht⟩
  | setRemoveOverlaps b => exact ⟨hf, hb, ht⟩
  | setFormat k => exact ⟨List.get_mem _ _ _, hb, ht⟩

lemma cfgInv_apply {s : ConfigState} (h : CfgInv s) (evs : List ConfigEvent) :
    CfgInv (applyEvents s evs) := by
  induction evs generalizing s with
  | nil => exact h
  | cons e rest ih => exact ih (cfgInv_step h e)

lemma cfgInv_submit {s out : ConfigState} (h : CfgInv s)
    (hs : handleSubmit s = some out) : CfgInv out := by
  obtain ⟨hf, hb, ht⟩ := h
  unfold handleSubmit at hs
  split at hs
  · split at hs
    · exact absurd hs (by simp)
    · obtain rfl := Option.some.inj hs
      exact ⟨hf, hb, ht⟩
  · obtain rfl := Option.some.inj hs
    exact ⟨hf, hb, ht⟩

lemma goodApp_submitted {out : ConfigState} (h : CfgInv out) :
    GoodApp (submittedToApp out) := by
  obtain ⟨hf, hb, ht⟩ := h
  exact ⟨hf, hb, ht⟩

lemma goodApp_reachable {c : AppConfig} (h : ReachableApp c) : GoodApp c := by
  induction h with
  | init => exact goodApp_initial
  | submit hr hs ih =>
      exact goodApp_submitted (cfgInv_submit (cfgInv_apply (cfgInv_init ih) _) hs)

lemma goodApp_run {c : AppConfig} (h : ReachableRun c) : GoodApp c := by
  obtain ⟨c0, evs, out, hr, hs, rfl⟩ := h
  exact goodApp_submitted (cfgInv_submit (cfgInv_apply (cfgInv_init (goodApp_reachable hr)) _) hs)

lemma sliderValue_bounds (k : Fin 17) : 1/10 ≤ sliderValue k ∧ sliderValue k ≤ 9/10 := by
  have hk : (k.val : ℚ) ≤ 16 := by
    have := k.isLt
    exact_mod_cast Nat.le_of_lt_succ this
  have hk0 : (0 : ℚ) ≤ (k.val : ℚ) := by positivity
  unfold sliderValue
  constructor <;> nlinarith

lemma thresholdOk_open_unit {q : ℚ} (h : ThresholdOk q) : 0 < q ∧ q < 1 := by
  obtain ⟨k, rfl⟩ := h
  obtain ⟨h1, h2⟩ := sliderValue_bounds k
  constructor <;> linarith

lemma selectFormatClicks_mem {init : String} (h : init ∈ exportFormatIds)
    (clicks : List (Fin 4)) : selectFormatClicks init clicks ∈ exportFormatIds := by
  induction clicks generalizing init with
  | nil => exact h
  | cons k rest ih => exact ih (List.get_mem _ _ _)

lemma runStep_processed_le (s : RunState) : s.processed ≤ (runStep s).processed := by
  unfold runStep
  split
  · split
    · exact Nat.le_succ _
    · exact le_rfl
  · exact le_rfl

lemma iterate_processed_mono (s : RunState) (m : ℕ) :
    s.processed ≤ (runStep^[m] s).processed := by
  induction m generalizing s with
  | zero => exact le_rfl
  | succ m ih =>
      rw [Function.iterate_succ_apply]
      exact le_trans (runStep_processed_le s) (ih (runStep s))

lemma runStep_preserves {s : RunState} (h : RunInv s) :
    RunInv (runStep s) ∧ (runStep s).total = s.total := by
  obtain ⟨hle, hcomp⟩ := h
  by_cases hst : s.status = RunStatus.processing
  · by_cases hlt : s.processed < s.total
    · have hs : runStep s = { s with processed := s.processed + 1 } := by
        simp [runStep, hst, hlt]
      rw [hs]
      refine ⟨⟨?_, ?_⟩, rfl⟩
      · show s.processed + 1 ≤ s.total
        omega
      · intro hc
        simp [hst] at hc
    · have hs : runStep s = { s with status := .completed } := by
        simp [runStep, hst, hlt]
      rw [hs]
      refine ⟨⟨hle, ?_⟩, rfl⟩
      intro _
      show s.processed = s.total
      omega
  · have hid : runStep s = s := by simp [runStep, hst]
    rw [hid]
    exact ⟨⟨hle, hcomp⟩, rfl⟩

lemma runInv_iter (n i : ℕ) : RunInv (runIter n i) ∧ (runIter n i).total = n := by
  induction i with
  | zero =>
      refine ⟨⟨Nat.zero_le _, ?_⟩, rfl⟩
      intro hc
      exact absurd hc (by simp [runIter, initRunState])
  | succ i ih =>
      obtain ⟨hinv, htot⟩ := ih
      have hstep : runIter n (i + 1) = runStep (runIter n i) := by
        unfold runIter
        rw [Function.iterate_succ_apply']
      rw [hstep]
      obtain ⟨hinv2, htot2⟩ := runStep_preserves hinv
      exact ⟨hinv2, htot2.trans htot⟩

lemma runIter_processed_mono (n : ℕ) {i j : ℕ} (h : i ≤ j) :
    (runIter n i).processed ≤ (runIter n j).processed := by
  obtain ⟨m, rfl⟩ := Nat.exists_eq_add_of_le h
  unfold runIter
  rw [Nat.add_comm, Function.iterate_add_apply]
  exact iterate_processed_mono _ m

lemma foldl_add_nat (f : Ann → ℕ) (c : ℕ) (l : List Ann) :
    l.foldl (fun sum ann => sum + f ann) c = c + (l.map f).sum := by
  induction l generalizing c with
  | nil => simp
  | cons a t ih =>
      rw [List.foldl_cons, ih, List.map_cons, List.sum_cons]
      omega

lemma foldl_add_rat (f : Ann → ℚ) (c : ℚ) (l : List Ann) :
    l.foldl (fun sum ann => sum + f ann) c = c + (l.map f).sum := by
  induction l generalizing c with
  | nil => simp
  | cons a t ih =>
      rw [List.foldl_cons, ih, List.map_cons, List.sum_cons]
      ring

lemma totalDetections_eq (a : AnnSet) :
    totalDetections a = (a.map (fun ann => ann.boxes.length)).sum := by
  unfold totalDetections
  rw [foldl_add_nat]
  omega

lemma sumScores_eq (a : AnnSet) :
    sumScores a = (a.map (fun ann => ann.scores.sum)).sum := by
  unfold sumScores
  rw [foldl_add_rat]
  ring

lemma procInv_step (b : Bool) {s : ProcState} (h : ProcInv s) :
    ProcInv (processingEffect b s) := by
  obtain ⟨h0, h1⟩ := h
  unfold processingEffect
  split
  · exact ⟨h0, h1⟩
  · rename_i hcond
    push_neg at hcond
    refine ⟨fun hfalse => by simp at hfalse, ?_⟩
    have : s.startRequests = 0 := h0 (by
      rcases Bool.eq_false_or_eq_true s.hasStarted with h | h
      · exact absurd h hcond.2
      · exact h)
    simp [this]

lemma procInv_foldl (renders : List Bool) {s : ProcState} (h : ProcInv s) :
    ProcInv (renders.foldl (fun t b => processingEffect b t) s) := by
  induction renders generalizing s with
  | nil => exact h
  | cons b rest ih => exact ih (procInv_step b h)

/-! ## Claim theorems -/

/-- C1: a configuration submitted from the configure page with
`skipDetection` off goes through only if some prompt trims to non-blank —
the submitted prompt list then contains exactly the non-blank-trimming
prompts, in particular all its entries are non-blank after trimming, and a
submission whose prompts all trim to empty is blocked (no run starts).  With
`skipDetection` on, the submitted prompt list is exactly `["object"]`. -/
theorem c1_prompt_validation (s : ConfigState) :
    (s.skipDetection = false →
      ((∀ o ∈ s.objects, jsTrim o = "") → handleSubmit s = none) ∧
      (∀ out, handleSubmit s = some out →
        out.objects ≠ [] ∧ ∀ o ∈ out.objects, jsTrim o ≠ "")) ∧
    (s.skipDetection = true →
      handleSubmit s = some { s with objects := ["object"] }) := by
  constructor
  · intro hsd
    constructor
    · intro hall
      have hfil : s.objects.filter (fun obj => jsTrim obj ≠ "") = [] := by
        rw [List.filter_eq_nil_iff]
        intro o ho
        simp [hall o ho]
      have hlen : (s.objects.filter (fun obj => jsTrim obj ≠ "")).length = 0 := by
        rw [hfil]
        rfl
      unfold handleSubmit
      rw [if_pos hsd, if_pos hlen]
    · intro out hout
      unfold handleSubmit at hout
      rw [if_pos hsd] at hout
      by_cases hlen : (s.objects.filter (fun obj => jsTrim obj ≠ "")).length = 0
      · rw [if_pos hlen] at hout
        exact Option.noConfusion hout
      · rw [if_neg hlen] at hout
        obtain rfl := Option.some.inj hout
        refine ⟨?_, ?_⟩
        · intro hnil
          apply hlen
          have hfil : List.filter (fun obj => jsTrim obj ≠ "") s.objects = [] := hnil
          rw [hfil]
          rfl
        · intro o ho
          have hmem := List.mem_filter.mp ho
          simpa using hmem.2
  · intro hsd
    have hns : ¬(s.skipDetection = false) := by simp [hsd]
    unfold handleSubmit
    rw [if_neg hns]

/-- Witness for C1: the concrete all-blank submission is blocked, and the
concrete skip-detection submission substitutes the single generic prompt. -/
theorem c1_prompt_validation_witness :
    cfgBlankExample.skipDetection = false ∧
    (∀ o ∈ cfgBlankExample.objects, jsTrim o = "") ∧
    handleSubmit cfgBlankExample = none ∧
    cfgSkipExample.skipDetection = true ∧
    handleSubmit cfgSkipExample = some { cfgSkipExample with objects := ["object"] } :=
  ⟨rfl, by decide, ((c1_prompt_validation cfgBlankExample).1 rfl).1 (by decide), rfl,
   (c1_prompt_validation cfgSkipExample).2 rfl⟩

/-- C2: for every run started from the UI, the run-start request body
consists exactly of the fields `objects` (an array of strings),
`box_threshold` (a number), `text_threshold` (a number), `use_sam`
(a boolean) and `export_format` (a string drawn from
coco/yolo/voc/roboflow), and nothing else. -/
theorem c2_run_body_fields (c : AppConfig) (h : ReachableRun c) :
    (startAnnotationBody c).map Prod.fst =
      ["objects", "box_threshold", "text_threshold", "use_sam", "export_format"] ∧
    (startAnnotationBody c).lookup "objects" = some (.jArr (c.objects.map .jStr)) ∧
    (startAnnotationBody c).lookup "box_threshold" = some (.jNum c.boxThreshold) ∧
    (startAnnotationBody c).lookup "text_threshold" = some (.jNum c.textThreshold) ∧
    (startAnnotationBody c).lookup "use_sam" = some (.jBool c.useSam) ∧
    (startAnnotationBody c).lookup "export_format" = some (.jStr c.exportFormat) ∧
    c.exportFormat ∈ ["coco", "yolo", "voc", "roboflow"] := by
  refine ⟨rfl, rfl, ?_, ?_, ?_, ?_, ?_⟩
  · simp [startAnnotationBody, List.lookup]
  · simp [startAnnotationBody, List.lookup]
  · simp [startAnnotationBody, List.lookup]
  · simp [startAnnotationBody, List.lookup]
  · exact (goodApp_run h).1

/-- Witness for C2: the config submitted by typing "cat" into a fresh
session is a reachable run config and its body has exactly the five fields. -/
theorem c2_run_body_fields_witness :
    ReachableRun runExampleConfig ∧
    (startAnnotationBody runExampleConfig).map Prod.fst =
      ["objects", "box_threshold", "text_threshold", "use_sam", "export_format"] ∧
    runExampleConfig.exportFormat ∈ ["coco", "yolo", "voc", "roboflow"] := by
  have hreach : ReachableRun runExampleConfig := by
    refine ⟨initialAppConfig, [ConfigEvent.objChange 0 "cat"], runExampleOut,
      ReachableApp.init, ?_, ?_⟩
    · rfl
    · rfl
  exact ⟨hreach, (c2_run_body_fields runExampleConfig hreach).1,
    (c2_run_body_fields runExampleConfig hreach).2.2.2.2.2.2⟩

/-- C3: the thresholds of every run config submitted by the UI lie strictly
between 0 and 1; the app defaults are 0.35 and 0.25, and every value a
threshold slider can produce is of the form 0.1 + k·0.05 and lies in
[0.1, 0.9]. -/
theorem c3_thresholds_in_unit_interval :
    initialAppConfig.boxThreshold = 35/100 ∧
    initialAppConfig.textThreshold = 25/100 ∧
    (∀ k : Fin 17, sliderValue k = 1/10 + k.val * (5/100) ∧
      1/10 ≤ sliderValue k ∧ sliderValue k ≤ 9/10) ∧
    (∀ c : AppConfig, ReachableRun c →
      (0 < c.boxThreshold ∧ c.boxThreshold < 1) ∧
      (0 < c.textThreshold ∧ c.textThreshold < 1)) := by
  refine ⟨rfl, rfl, ?_, ?_⟩
  · intro k
    exact ⟨rfl, sliderValue_bounds k⟩
  · intro c h
    obtain ⟨_, hb, ht⟩ := goodApp_run h
    exact ⟨thresholdOk_open_unit hb, thresholdOk_open_unit ht⟩

/-- Witness for C3: the first slider stop is 0.1, and the concrete reachable
run config has thresholds strictly between 0 and 1. -/
theorem c3_thresholds_in_unit_interval_witness :
    sliderValue 0 = 1/10 ∧
    ReachableRun runExampleConfig ∧
    (0 < runExampleConfig.boxThreshold ∧ runExampleConfig.boxThreshold < 1) := by
  have hreach : ReachableRun runExampleConfig := by
    refine ⟨initialAppConfig, [ConfigEvent.objChange 0 "cat"], runExampleOut,
      ReachableApp.init, ?_, ?_⟩
    · rfl
    · rfl
  refine ⟨?_, hreach,
    ((c3_thresholds_in_unit_interval.2.2.2 runExampleConfig hreach).1)⟩
  have h := (c3_thresholds_in_unit_interval.2.2.1 0).1
  rw [h]
  norm_num

/-- C4: the export endpoint (modelled from the spec) rejects an unknown or
unsupported format with a distinct error carrying that format and produces
no archive; on the export page every export request carries a format from
coco/yolo/voc/roboflow (the initial selection is the run config format, and
the radios can only switch among the four); and on a non-OK response no
download is triggered, the export-complete state is not entered, and the
failure alert is shown instead. -/
theorem c4_export_format_rejection :
    (∀ (format : String) (a : AnnSet), format ∉ exportFormatIds →
      exportEndpoint format a = .error (.unknownFormat format)) ∧
    (∀ (c : AppConfig) (clicks : List (Fin 4)), ReachableRun c →
      selectFormatClicks c.exportFormat clicks ∈ exportFormatIds) ∧
    (handleExport false).downloaded = false ∧
    (handleExport false).exportComplete = false ∧
    (handleExport false).alertShown = true := by
  refine ⟨?_, ?_, rfl, rfl, rfl⟩
  · intro format a hmem
    unfold exportEndpoint
    rw [if_neg hmem]
  · intro c clicks h
    exact selectFormatClicks_mem (goodApp_run h).1 clicks

/-- Witness for C4: the unsupported format "geojson" is rejected with the
distinct unknown-format error on a concrete annotation set, and the format
selected after concrete clicks from a concrete reachable config is one of
the four supported ids. -/
theorem c4_export_format_rejection_witness :
    ("geojson" ∉ exportFormatIds) ∧
    exportEndpoint "geojson" annSetExample = .error (.unknownFormat "geojson") ∧
    ReachableRun runExampleConfig ∧
    selectFormatClicks runExampleConfig.exportFormat [1, 2] ∈ exportFormatIds := by
  have hreach : ReachableRun runExampleConfig := by
    refine ⟨initialAppConfig, [ConfigEvent.objChange 0 "cat"], runExampleOut,
      ReachableApp.init, ?_, ?_⟩
    · rfl
    · rfl
  refine ⟨by decide, ?_, hreach, ?_⟩
  · exact c4_export_format_rejection.1 "geojson" annSetExample (by decide)
  · exact c4_export_format_rejection.2.1 runExampleConfig [1, 2] hreach

/-- C5: within a run (task runner modelled from the spec), the processed
count is monotonically non-decreasing over the loop iterations, never
exceeds the total image count, and equals the total image count whenever the
status is `completed`; the processing page polls every 500 ms, and a poll
response with status `completed` stops the polling and sets the displayed
progress to 100. -/
theorem c5_progress_monotonic :
    (∀ (n i j : ℕ), i ≤ j →
      (runIter n i).processed ≤ (runIter n j).processed) ∧
    (∀ n i : ℕ, (runIter n i).processed ≤ n) ∧
    (∀ n i : ℕ, (runIter n i).status = .completed → (runIter n i).processed = n) ∧
    pollIntervalMs = 500 ∧
    (∀ (p : PageState) (d : PollData), d.status = "completed" →
      (handlePollTick p d).pollingActive = false ∧
      (handlePollTick p d).progress = 100 ∧
      (handlePollTick p d).status = "completed") := by
  refine ⟨fun n i j h => runIter_processed_mono n h, ?_, ?_, rfl, ?_⟩
  · intro n i
    obtain ⟨⟨hle, _⟩, htot⟩ := runInv_iter n i
    rw [htot] at hle
    exact hle
  · intro n i hc
    obtain ⟨⟨_, hcomp⟩, htot⟩ := runInv_iter n i
    rw [htot] at hcomp
    exact hcomp hc
  · intro p d hd
    unfold handlePollTick
    rw [if_pos hd]
    exact ⟨rfl, rfl, rfl⟩

/-- Witness for C5: concrete loop iterations of a 3-image run, and the
concrete completed poll response stopping the poller at 100%. -/
theorem c5_progress_monotonic_witness :
    (1 ≤ 2 ∧ (runIter 3 1).processed ≤ (runIter 3 2).processed) ∧
    (runIter 3 2).processed ≤ 3 ∧
    (pollCompletedExample.status = "completed") ∧
    (handlePollTick pageStateExample pollCompletedExample).pollingActive = false ∧
    (handlePollTick pageStateExample pollCompletedExample).progress = 100 :=
  ⟨⟨by decide, c5_progress_monotonic.1 3 1 2 (by decide)⟩,
   c5_progress_monotonic.2.1 3 2, rfl,
   (c5_progress_monotonic.2.2.2.2 pageStateExample pollCompletedExample rfl).1,
   (c5_progress_monotonic.2.2.2.2 pageStateExample pollCompletedExample rfl).2.1⟩

/-- C6: at most one run is in flight per session.  On the frontend, any
sequence of re-renders of the processing page sends at most one run-start
request (the has-started ref guards the effect); on the backend (modelled
from the spec), a start attempt while the session is `processing` is
rejected and leaves the server state — including the pending-run queue —
unchanged, i.e. the attempt is not queued. -/
theorem c6_single_run_in_flight :
    (∀ renders : List Bool,
      (renders.foldl (fun t b => processingEffect b t) initProcState).startRequests ≤ 1) ∧
    (∀ (srv : ServerSession) (cfg : AppConfig), srv.runStatus = .processing →
      startRun srv cfg = (.rejected, srv) ∧
      (startRun srv cfg).2.pendingRuns = srv.pendingRuns) := by
  constructor
  · intro renders
    exact (procInv_foldl renders ⟨fun _ => rfl, Nat.zero_le 1⟩).2
  · intro srv cfg hst
    have hs : startRun srv cfg = (.rejected, srv) := by
      unfold startRun
      rw [if_pos hst]
    exact ⟨hs, by rw [hs]⟩

/-- Witness for C6: three consecutive renders with a session present send
exactly one start request, and the concrete processing session rejects a
second start without touching its queue. -/
theorem c6_single_run_in_flight_witness :
    ([true, true, true].foldl (fun t b => processingEffect b t) initProcState).startRequests ≤ 1 ∧
    serverProcessingExample.runStatus = .processing ∧
    startRun serverProcessingExample runExampleConfig = (.rejected, serverProcessingExample) :=
  ⟨c6_single_run_in_flight.1 [true, true, true], rfl,
   (c6_single_run_in_flight.2 serverProcessingExample runExampleConfig rfl).1⟩

/-- C7 counterexample: a file named "images.tar" — whose name does not end
in ".zip" — chosen via the file picker is accepted by `handleFileSelect`
with no error shown, contradicting the claim that every non-ZIP file the
user provides is rejected with an error. -/
theorem c7_counterexample_picker_accepts_non_zip :
    (jsEndsWith "images.tar" ".zip" = false) ∧
    (handleFileSelect (some "images.tar") initUploadState).file = some "images.tar" ∧
    (handleFileSelect (some "images.tar") initUploadState).error = none := by
  refine ⟨by decide, rfl, rfl⟩

/-- C7 as amended: a file dropped onto the dropzone whose name does not end
in ".zip" is rejected with the upload error and not accepted (and a ZIP drop
is accepted with the error cleared), while a file chosen via the file picker
is accepted without any client-side name check. -/
theorem c7_non_zip_rejected_on_drop_only (name : String) (s : UploadState) :
    (jsEndsWith name ".zip" = false →
      (handleDrop (some name) s).file = s.file ∧
      (handleDrop (some name) s).error = some "Please upload a ZIP file") ∧
    (jsEndsWith name ".zip" = true →
      (handleDrop (some name) s).file = some name ∧
      (handleDrop (some name) s).error = none) ∧
    ((handleFileSelect (some name) s).file = some name ∧
      (handleFileSelect (some name) s).error = none) := by
  refine ⟨?_, ?_, rfl, rfl⟩
  · intro hz
    simp [handleDrop, hz]
  · intro hz
    simp [handleDrop, hz]

/-- Witness for the amended C7: the concrete non-ZIP drop is rejected and
the concrete ZIP drop accepted. -/
theorem c7_non_zip_rejected_on_drop_only_witness :
    (jsEndsWith "images.tar" ".zip" = false ∧
      (handleDrop (some "images.tar") initUploadState).error =
        some "Please upload a ZIP file") ∧
    (jsEndsWith "photos.zip" ".zip" = true ∧
      (handleDrop (some "photos.zip") initUploadState).file = some "photos.zip") :=
  ⟨⟨by decide,
    ((c7_non_zip_rejected_on_drop_only "images.tar" initUploadState).1 (by decide)).2⟩,
   ⟨by decide,
    ((c7_non_zip_rejected_on_drop_only "photos.zip" initUploadState).2.1 (by decide)).1⟩⟩

/-- C8: class-color assignment in the viewer is deterministic — `classes`
is exactly the list of unique labels in first-seen order over the annotation
set, the drawn color is a function of the detection label and that list
alone, and any two detections of the same annotation set whose (fallback-
resolved) labels agree render in the same color. -/
theorem c8_class_color_deterministic :
    (∀ a : AnnSet, classesOf a = firstSeenDedup (a.flatMap (fun ann => ann.labels))) ∧
    (∀ (a : AnnSet) (ann1 ann2 : Ann) (i1 i2 : ℕ),
      ann1 ∈ a → ann2 ∈ a →
      labelAt ann1 i1 = labelAt ann2 i2 →
      detectionColor a ann1 i1 = detectionColor a ann2 i2) := by
  refine ⟨fun a => rfl, ?_⟩
  intro a ann1 ann2 i1 i2 _ _ hlabel
  unfold detectionColor
  rw [hlabel]

/-- Witness for C8: the two same-label detections of the concrete annotation
set render in the same color. -/
theorem c8_class_color_deterministic_witness :
    annExample ∈ annSetExample ∧
    labelAt annExample 0 = labelAt annExample 1 ∧
    detectionColor annSetExample annExample 0 = detectionColor annSetExample annExample 1 :=
  ⟨show annExample ∈ [annExample] from List.mem_singleton_self _, by decide,
   c8_class_color_deterministic.2 annSetExample annExample annExample 0 1
     (show annExample ∈ [annExample] from List.mem_singleton_self _)
     (show annExample ∈ [annExample] from List.mem_singleton_self _) (by decide)⟩

/-- C9: the viewer treats a pixel coordinate equal to 0 as absent — when
`x1` is 0 the drawn x comes from the normalized field (`box.x` times image
width), when `x2` is 0 the drawn width comes from `box.width` times image
width, and the rectangle is drawn at x = `x1` with width `x2 - x1` whenever
`x1` and `x2` are both non-zero. -/
theorem c9_zero_pixel_coordinate_fallback (b : VBox) (imgWidth : ℚ) :
    (b.x1 = 0 → drawX b imgWidth = b.x * imgWidth) ∧
    (b.x2 = 0 → drawW b imgWidth = b.width * imgWidth) ∧
    (b.x1 ≠ 0 ∧ b.x2 ≠ 0 →
      drawX b imgWidth = b.x1 ∧ drawW b imgWidth = b.x2 - b.x1) := by
  refine ⟨?_, ?_, ?_⟩
  · intro h
    unfold drawX
    rw [if_neg (by simp [h])]
  · intro h
    unfold drawW
    rw [if_neg (by simp [h])]
  · intro ⟨h1, h2⟩
    constructor
    · unfold drawX
      rw [if_pos h1]
    · unfold drawW
      rw [if_pos h2]

/-- Witness for C9: a concrete normalized-only box is drawn from the
normalized fields, and a concrete pixel box from its pixel fields. -/
theorem c9_zero_pixel_coordinate_fallback_witness :
    (boxNormExample.x1 = 0 ∧ drawX boxNormExample 400 = boxNormExample.x * 400) ∧
    (boxPixelExample.x1 ≠ 0 ∧ boxPixelExample.x2 ≠ 0 ∧
      drawX boxPixelExample 400 = boxPixelExample.x1 ∧
      drawW boxPixelExample 400 = boxPixelExample.x2 - boxPixelExample.x1) := by
  have h1 := (c9_zero_pixel_coordinate_fallback boxNormExample 400).1 rfl
  have hx1 : boxPixelExample.x1 ≠ 0 := by norm_num [boxPixelExample]
  have hx2 : boxPixelExample.x2 ≠ 0 := by norm_num [boxPixelExample]
  have h2 := (c9_zero_pixel_coordinate_fallback boxPixelExample 400).2.2 ⟨hx1, hx2⟩
  exact ⟨⟨rfl, h1⟩, hx1, hx2, h2.1, h2.2⟩

/-- C10: the viewer's average-confidence statistic equals the sum of all
detection scores divided by max(total detection count, 1), the denominator
is strictly positive (so the statistic is always a well-defined number), and
on an aligned annotation set with zero detections it is 0. -/
theorem c10_avg_confidence_total (a : AnnSet) :
    avgConfidence a = sumScores a / max (totalDetections a : ℚ) 1 ∧
    (0 : ℚ) < max (totalDetections a : ℚ) 1 ∧
    (Aligned a → totalDetections a = 0 → avgConfidence a = 0) := by
  refine ⟨?_, ?_, ?_⟩
  · unfold avgConfidence
    by_cases h : totalDetections a = 0
    · rw [if_pos h, h]
      norm_num
    · rw [if_neg h]
      have h1 : (1 : ℚ) ≤ (totalDetections a : ℚ) := by
        exact_mod_cast Nat.one_le_iff_ne_zero.mpr h
      rw [max_eq_left h1]
  · exact lt_max_of_lt_right one_pos
  · intro halign h0
    have hboxes : ∀ ann ∈ a, ann.boxes.length = 0 := by
      intro ann hann
      have hsum : (a.map (fun ann => ann.boxes.length)).sum = 0 := by
        rw [← totalDetections_eq]
        exact h0
      have := List.sum_eq_zero_iff.mp hsum
      exact this _ (List.mem_map_of_mem _ hann)
    have hscores : sumScores a = 0 := by
      rw [sumScores_eq]
      apply List.sum_eq_zero
      intro q hq
      obtain ⟨ann, hann, rfl⟩ := List.mem_map.mp hq
      have hlen : ann.scores.length = 0 := by
        rw [halign ann hann]
        exact hboxes ann hann
      rw [List.length_eq_zero.mp hlen]
      rfl
    unfold avgConfidence
    rw [hscores, if_pos h0]
    norm_num

/-- Witness for C10: the concrete empty annotation set is aligned, has zero
detections and displays an average confidence of 0. -/
theorem c10_avg_confidence_total_witness :
    Aligned annSetEmptyExample ∧
    totalDetections annSetEmptyExample = 0 ∧
    avgConfidence annSetEmptyExample = 0 :=
  ⟨by intro ann hann; simp [annSetEmptyExample] at hann; simp [hann],
   rfl,
   (c10_avg_confidence_total annSetEmptyExample).2.2
     (by intro ann hann; simp [annSetEmptyExample] at hann; simp [hann]) rfl⟩

end AutoMark
